import Mathlib

/-! Garage door controller: configuration header.

A verification development for `controller/example-config.h`, the header of
preprocessor constants consumed by the garage door controller firmware:
WiFi credentials, MQTT broker settings, GPIO pin assignments and timing
thresholds.

Embedding.  An object-like macro whose replacement is a string literal is a
`String` constant, one whose replacement is a decimal integer literal is a
`Nat` constant (every value of the header is far below `2^15`, so no C
integer type can wrap it).  The function-like macro `MQTT_TOPIC(s)` has the
replacement `(MQTT_TOPIC_PREFIX s)`: applied to a string literal it leaves
two adjacent string literals, which the C translator joins into a single
literal, so it is embedded as `String` append.  The sequence of `#define`
directives itself is kept as data (`defines`), in source order with the line
of each directive, together with the way a preprocessor folds such a
sequence into its macro table.
-/

namespace GarageDoor

/-! ## WIFI config -/

/-- Line 6: `#define WIFI_SSID "WIFI_SSID"` -/
def WIFI_SSID : String := "WIFI_SSID"

/-- Line 7: `#define WIFI_PASS "WIFI_PASSWORD"` -/
def WIFI_PASS : String := "WIFI_PASSWORD"

/-! ## MQTT config -/

/-- Line 10: `#define MQTT_HOST "mqtthost.example.com"` -/
def MQTT_HOST : String := "mqtthost.example.com"

/-- Line 11: `#define MQTT_PORT 1883` -/
def MQTT_PORT : Nat := 1883

/-- Line 12: `#define MQTT_USER "mqtt_username"` -/
def MQTT_USER : String := "mqtt_username"

/-- Line 13: `#define MQTT_PASS "mqtt_password"` -/
def MQTT_PASS : String := "mqtt_password"

/-- Line 14: `#define MQTT_TOPIC_PREFIX "mqtt/topic/prefix"` -/
def MQTT_TOPIC_PREFIX : String := "mqtt/topic/prefix"

/-- Line 15: `#define MQTT_TOPIC(s) (MQTT_TOPIC_PREFIX s)`.  With a string
literal for `s` the replacement is the pair of adjacent literals
`"mqtt/topic/prefix" s`, which are joined into one string. -/
def MQTT_TOPIC (s : String) : String := (MQTT_TOPIC_PREFIX ++ s)

/-! ## GPIO pins -/

/-- Line 18: `#define SENSOR0_PIN 14` (door sensor on D5/GPIO14) -/
def SENSOR0_PIN : Nat := 14

/-- Line 19: `#define SENSOR1_PIN 12` (door sensor on D6/GPIO12) -/
def SENSOR1_PIN : Nat := 12

/-- Line 22: `#define RELAY_PIN 5` (relay energized when D1/GPIO5 is HIGH) -/
def RELAY_PIN : Nat := 5

/-- Line 25: `#define RESET_PIN 4` (hardware reset by driving D2/GPIO4 LOW) -/
def RESET_PIN : Nat := 4

/-! ## Timing thresholds -/

/-- Line 28: `#define BUTTON_DWELL_MS 300` (button press relay close duration
in milliseconds) -/
def BUTTON_DWELL_MS : Nat := 300

/-- Line 31: `#define OUTPUT_INTERVAL 1000` (output publish interval) -/
def OUTPUT_INTERVAL : Nat := 1000

/-- Line 34: `#define WATCHDOG_TIMEOUT 10000` (force reset if this timer
expires without a connection) -/
def WATCHDOG_TIMEOUT : Nat := 10000

/-! ## The directives of the header -/

/-- A `#define` directive: the source line it stands on and the macro name
it defines.  Object-like and function-like macros live in one name space, so
the name alone decides whether two directives clash. -/
structure Define where
  line : Nat
  name : String
  deriving DecidableEq

/-- The `#define` directives of `controller/example-config.h`, in source
order. -/
def defines : List Define :=
  [ ⟨6, "WIFI_SSID"⟩,
    ⟨7, "WIFI_PASS"⟩,
    ⟨10, "MQTT_HOST"⟩,
    ⟨11, "MQTT_PORT"⟩,
    ⟨12, "MQTT_USER"⟩,
    ⟨13, "MQTT_PASS"⟩,
    ⟨14, "MQTT_TOPIC_PREFIX"⟩,
    ⟨15, "MQTT_TOPIC"⟩,
    ⟨18, "SENSOR0_PIN"⟩,
    ⟨19, "SENSOR1_PIN"⟩,
    ⟨22, "RELAY_PIN"⟩,
    ⟨25, "RESET_PIN"⟩,
    ⟨28, "BUTTON_DWELL_MS"⟩,
    ⟨31, "OUTPUT_INTERVAL"⟩,
    ⟨34, "WATCHDOG_TIMEOUT"⟩ ]

/-- The macro names the header defines, in source order. -/
def macroNames : List String := defines.map Define.name

/-- Processing one `#define`: a binding of the same name already in the
table is dropped and the new directive becomes the definition in force. -/
def defineMacro (table : List Define) (d : Define) : List Define :=
  table.filter (fun e => e.name != d.name) ++ [d]

/-- The macro table after the preprocessor has read a sequence of
directives from top to bottom. -/
def macroTable (ds : List Define) : List Define :=
  ds.foldl defineMacro []

/-- The line of the definition in force for a macro name, if any. -/
def definedAt (table : List Define) (n : String) : Option Nat :=
  (table.find? (fun e => e.name == n)).map Define.line

/-- The four GPIO pin constants, in the order sensor0, sensor1, relay,
reset. -/
def pins : List Nat := [SENSOR0_PIN, SENSOR1_PIN, RELAY_PIN, RESET_PIN]

/-! ## The topic macro -/

/-- The byte size of an appended string is the sum of the byte sizes. -/
theorem utf8ByteSize_append (a b : String) :
    (a ++ b).utf8ByteSize = a.utf8ByteSize + b.utf8ByteSize := by
  cases a with
  | mk as =>
    cases b with
    | mk bs =>
      show String.utf8ByteSize ⟨as ++ bs⟩ = _
      simp [String.utf8ByteSize_mk]

/-- C1: for every suffix string `s`, `MQTT_TOPIC(s)` is exactly
`MQTT_TOPIC_PREFIX` followed by `s`, with no character between them: the
characters of the result are those of the prefix and then those of `s`,
what follows the prefix is `s` itself, and the length (in characters and in
bytes) is the prefix length plus the length of `s`.  With the prefix of the
header, `"mqtt/topic/prefix"`, `MQTT_TOPIC("bar")` is
`"mqtt/topic/prefixbar"`. -/
theorem MQTT_TOPIC_eq_prefix_append (s : String) :
    MQTT_TOPIC s = MQTT_TOPIC_PREFIX ++ s
    ∧ (MQTT_TOPIC s).data = MQTT_TOPIC_PREFIX.data ++ s.data
    ∧ (MQTT_TOPIC s).data.take MQTT_TOPIC_PREFIX.length = MQTT_TOPIC_PREFIX.data
    ∧ (MQTT_TOPIC s).data.drop MQTT_TOPIC_PREFIX.length = s.data
    ∧ (MQTT_TOPIC s).length = MQTT_TOPIC_PREFIX.length + s.length
    ∧ (MQTT_TOPIC s).utf8ByteSize = MQTT_TOPIC_PREFIX.utf8ByteSize + s.utf8ByteSize
    ∧ MQTT_TOPIC_PREFIX = "mqtt/topic/prefix"
    ∧ MQTT_TOPIC "bar" = "mqtt/topic/prefixbar" := by
  have hdata : (MQTT_TOPIC s).data = MQTT_TOPIC_PREFIX.data ++ s.data := rfl
  refine ⟨rfl, hdata, ?_, ?_, ?_, ?_, rfl, by decide⟩
  · rw [hdata, String.length]
    exact List.take_left _ _
  · rw [hdata, String.length]
    exact List.drop_left _ _
  · exact String.length_append _ _
  · exact utf8ByteSize_append MQTT_TOPIC_PREFIX s

/-- The comparison loop of `String.substrEq`, started after a common part
`l` of both strings, succeeds when the first string is `l ++ r` and the
second one continues it. -/
theorem substrEq_loop_append (l r t : List Char) :
    String.substrEq.loop ⟨l ++ r⟩ ⟨l ++ r ++ t⟩ ⟨String.utf8Len l⟩ ⟨String.utf8Len l⟩
      ⟨String.utf8Len (l ++ r)⟩ = true := by
  induction r generalizing l with
  | nil =>
    rw [String.substrEq.loop]
    simp
  | cons c r ih =>
    rw [String.substrEq.loop]
    have h1 : String.get ⟨l ++ c :: r⟩ ⟨String.utf8Len l⟩ = c := by
      simpa using String.get_of_valid l (c :: r)
    have h2 : String.get ⟨l ++ c :: r ++ t⟩ ⟨String.utf8Len l⟩ = c := by
      simpa using String.get_of_valid l (c :: r ++ t)
    have hlt : String.utf8Len l < String.utf8Len (l ++ c :: r) := by
      have := Char.utf8Size_pos c
      simp [String.utf8Len_append, String.utf8Len_cons]
      omega
    have ih2 := ih (l ++ [c])
    simp only [List.append_assoc, List.singleton_append] at ih2
    simp only [h1, h2, hlt, dite_true, beq_self_eq_true, Bool.true_and]
    have e : (⟨String.utf8Len l⟩ : String.Pos) + c = ⟨String.utf8Len (l ++ [c])⟩ := by
      simp [String.Pos.ext_iff, String.utf8Len_append, String.utf8Len_cons]
    rw [e]
    have e2 : l ++ c :: r ++ t = l ++ c :: (r ++ t) := by simp
    rw [e2]
    exact ih2

/-- The library test `String.isPrefixOf` accepts a string against any
extension of it. -/
theorem isPrefixOf_append (p t : String) : p.isPrefixOf (p ++ t) = true := by
  cases p with
  | mk ps =>
    cases t with
    | mk ts =>
      show String.isPrefixOf ⟨ps⟩ ⟨ps ++ ts⟩ = true
      have h := substrEq_loop_append [] ps ts
      simp only [List.nil_append, String.utf8Len_nil] at h
      simp [String.isPrefixOf, String.substrEq, String.endPos, String.utf8ByteSize_mk,
        String.utf8Len_append]
      exact h

/-- C5: `MQTT_TOPIC` is injective and prefix-preserving: equal topics come
from equal suffixes, distinct suffixes give distinct topics, and every topic
built starts with `MQTT_TOPIC_PREFIX`, both as a sequence of characters and
for the byte-wise test `String.isPrefixOf`. -/
theorem MQTT_TOPIC_injective_prefixed :
    (∀ s1 s2 : String, MQTT_TOPIC s1 = MQTT_TOPIC s2 → s1 = s2)
    ∧ (∀ s1 s2 : String, s1 ≠ s2 → MQTT_TOPIC s1 ≠ MQTT_TOPIC s2)
    ∧ (∀ s : String, MQTT_TOPIC_PREFIX.data <+: (MQTT_TOPIC s).data)
    ∧ (∀ s : String, MQTT_TOPIC_PREFIX.isPrefixOf (MQTT_TOPIC s) = true) := by
  have inj : ∀ s1 s2 : String, MQTT_TOPIC s1 = MQTT_TOPIC s2 → s1 = s2 := by
    intro s1 s2 h
    have hd : MQTT_TOPIC_PREFIX.data ++ s1.data = MQTT_TOPIC_PREFIX.data ++ s2.data :=
      congrArg String.data h
    exact String.ext (List.append_cancel_left hd)
  refine ⟨inj, ?_, ?_, ?_⟩
  · intro s1 s2 hne h
    exact hne (inj s1 s2 h)
  · intro s
    exact ⟨s.data, rfl⟩
  · intro s
    exact isPrefixOf_append MQTT_TOPIC_PREFIX s

/-- C5, at a concrete input: the suffixes `"door"` and `"do" ++ "or"` give
the same topic, and they are the same suffix. -/
theorem MQTT_TOPIC_injective_prefixed_witness :
    MQTT_TOPIC "door" = MQTT_TOPIC ("do" ++ "or") ∧ "door" = "do" ++ "or" :=
  ⟨by decide, MQTT_TOPIC_injective_prefixed.1 "door" ("do" ++ "or") (by decide)⟩

/-! ## Pins, timings and the broker port -/

/-- C2: the GPIO pin constants are `SENSOR0_PIN = 14`, `SENSOR1_PIN = 12`,
`RELAY_PIN = 5` and `RESET_PIN = 4`, and no two of the four roles share a
pin. -/
theorem pin_constants_distinct :
    SENSOR0_PIN = 14 ∧ SENSOR1_PIN = 12 ∧ RELAY_PIN = 5 ∧ RESET_PIN = 4
    ∧ SENSOR0_PIN ≠ SENSOR1_PIN ∧ SENSOR0_PIN ≠ RELAY_PIN ∧ SENSOR0_PIN ≠ RESET_PIN
    ∧ SENSOR1_PIN ≠ RELAY_PIN ∧ SENSOR1_PIN ≠ RESET_PIN ∧ RELAY_PIN ≠ RESET_PIN
    ∧ pins.Nodup := by
  decide

/-- C3: every timing constant is a strictly positive number of milliseconds:
`BUTTON_DWELL_MS` is 300, `OUTPUT_INTERVAL` is 1000 and `WATCHDOG_TIMEOUT` is
10000, each greater than 0. -/
theorem timing_constants_positive :
    BUTTON_DWELL_MS = 300 ∧ OUTPUT_INTERVAL = 1000 ∧ WATCHDOG_TIMEOUT = 10000
    ∧ 0 < BUTTON_DWELL_MS ∧ 0 < OUTPUT_INTERVAL ∧ 0 < WATCHDOG_TIMEOUT := by
  decide

/-- C6: the timing thresholds are strictly ordered,
`BUTTON_DWELL_MS < OUTPUT_INTERVAL < WATCHDOG_TIMEOUT`, and so both the relay
dwell and the publish interval are shorter than the watchdog timeout. -/
theorem timing_constants_ordered :
    BUTTON_DWELL_MS < OUTPUT_INTERVAL ∧ OUTPUT_INTERVAL < WATCHDOG_TIMEOUT
    ∧ BUTTON_DWELL_MS < WATCHDOG_TIMEOUT := by
  decide

/-- C7: `MQTT_PORT` is 1883, a valid TCP port number: it lies between 1 and
65535 and an unsigned 16-bit port field holds it without truncation. -/
theorem MQTT_PORT_valid :
    MQTT_PORT = 1883 ∧ 1 ≤ MQTT_PORT ∧ MQTT_PORT ≤ 65535
    ∧ MQTT_PORT % 2 ^ 16 = MQTT_PORT := by
  decide

/-! ## The macro names -/

/-- C4: the macro names the header defines are the fifteen listed, no name
occurs twice, each occurs exactly once, and reading the header from top to
bottom never replaces a definition: the macro table is the directive list
itself and the definition in force for every name is the directive that
introduced it. -/
theorem macro_names_defined_once :
    macroNames =
      ["WIFI_SSID", "WIFI_PASS", "MQTT_HOST", "MQTT_PORT", "MQTT_USER", "MQTT_PASS",
       "MQTT_TOPIC_PREFIX", "MQTT_TOPIC", "SENSOR0_PIN", "SENSOR1_PIN", "RELAY_PIN",
       "RESET_PIN", "BUTTON_DWELL_MS", "OUTPUT_INTERVAL", "WATCHDOG_TIMEOUT"]
    ∧ macroNames.Nodup
    ∧ macroTable defines = defines
    ∧ (∀ n ∈ macroNames, macroNames.count n = 1)
    ∧ (∀ d ∈ defines, definedAt (macroTable defines) d.name = some d.line) := by
  refine ⟨by decide, by decide, by decide, by decide, by decide⟩

/-- C4, at a concrete input: `MQTT_TOPIC` is among the names and is defined
exactly once, although `MQTT_TOPIC_PREFIX` starts with the same letters. -/
theorem macro_names_defined_once_witness :
    "MQTT_TOPIC" ∈ macroNames ∧ macroNames.count "MQTT_TOPIC" = 1 :=
  ⟨by decide, macro_names_defined_once.2.2.2.1 "MQTT_TOPIC" (by decide)⟩

end GarageDoor
